import Mathlib

/-!
Verification of the IndraDB proto client (src/proto/src/client.rs).

The client multiplexes graph-store operations over one bidirectional gRPC
stream. A `Transaction` owns an outbound mpsc sender, an inbound tonic
`Streaming` receiver, and a `u32` counter `next_request_id`. This file gives a
shallow embedding of the relevant code and proves the frozen claims about it.

Modelling conventions:
- The `u32` counter is a `Nat` together with wrap-around `% 2 ^ 32` at the one
  place the source increments it (`self.next_request_id += 1`).
- The inbound gRPC stream is modelled by the list of messages it will deliver;
  `message()` yields the head, and the end of the list is the end of the
  stream (`message()` returning `None`).
- The outbound mpsc channel is modelled by a flag saying whether the receiving
  side is still there, plus the list of requests successfully sent (the wire).
  A send on a closed channel returns the rejected message as an error, as
  tokio mpsc `SendError` does.
-/

set_option autoImplicit false

/-- Modelled from the spec: §3 — `OperationVariant` (`crate::TransactionRequestVariant`,
generated protobuf code not under src/) is a closed set of operation payloads
(create vertex, get vertices, ...). Which operation is carried never influences
the claims, so operations are abstracted to a tag. -/
inductive TransactionRequestVariant where
  | Op : Nat → TransactionRequestVariant
deriving DecidableEq

/-- Modelled from the spec: §3 — `ResultVariant` (`crate::TransactionResponseVariant`,
generated protobuf code not under src/) mirrors the operation result shapes plus
a distinguished `Empty` variant used purely as a stream terminator for
multi-value replies. Non-Empty payloads are abstracted to a tagged `Data`. -/
inductive TransactionResponseVariant where
  | Empty : TransactionResponseVariant
  | Data : Nat → TransactionResponseVariant
deriving DecidableEq

/-- Modelled from the spec: §6 — a wire Request is
`{ call_id: uint32, operation: ... }` (`crate::TransactionRequest`; the client
builds it with `request_id` and `request: Some(variant)`). -/
structure TransactionRequest where
  request_id : Nat
  request : Option TransactionRequestVariant
deriving DecidableEq

/-- Modelled from the spec: §3 — a wire Response is
`{ call_id: u32, payload: Option<ResultVariant> }` (`crate::TransactionResponse`
with fields `request_id` and `response`). -/
structure TransactionResponse where
  request_id : Nat
  response : Option TransactionResponseVariant
deriving DecidableEq

/-- ClientError, client.rs lines 24-39. Payloads of the variants that wrap
external error types (`Conversion`, `Grpc`, `Transport`) are elided: the claims
only distinguish the variants. -/
inductive ClientError where
  | Conversion : ClientError
  | UnexpectedResponseId : Nat → Nat → ClientError
  | UnexpectedEmptyResponse : Nat → ClientError
  | Grpc : ClientError
  | Transport : ClientError
  | ChannelClosed : ClientError
deriving DecidableEq

/-- check_request_id, client.rs lines 16-22. -/
def check_request_id (expected actual : Nat) : Except ClientError Unit :=
  if expected ≠ actual then
    Except.error (ClientError.UnexpectedResponseId expected actual)
  else
    Except.ok ()

/-- From<mpsc::error::SendError<T>> for ClientError, client.rs lines 87-91:
every send failure on the outbound channel maps to `ChannelClosed`, whatever
message was being sent. -/
def clientErrorOfSendError (_sendError : TransactionRequest) : ClientError :=
  ClientError.ChannelClosed

/-- Sending on a tokio mpsc channel, at the boundary the source uses it: when
the receiving side is still there the message is appended to the wire, else the
send fails and hands the message back (`SendError`). -/
def mpscSend (isOpen : Bool) (sent : List TransactionRequest) (m : TransactionRequest) :
    Except TransactionRequest (List TransactionRequest) :=
  match isOpen with
  | true => Except.ok (sent ++ [m])
  | false => Except.error m

/-- Receiving from the inbound tonic Streaming, at the boundary the source uses
it: `message()` yields the next message of the stream, or `none` once the
stream has ended. -/
def streamingMessage (receiver : List TransactionResponse) :
    Option TransactionResponse × List TransactionResponse :=
  match receiver with
  | [] => (none, [])
  | r :: rest => (some r, rest)

/-- Transaction, client.rs lines 176-180: outbound sender (modelled by openness
flag plus the wire), inbound receiver, and the `u32` counter `next_request_id`. -/
structure Transaction where
  senderOpen : Bool
  sent : List TransactionRequest
  receiver : List TransactionResponse
  next_request_id : Nat
deriving DecidableEq

/-- Transaction::new, client.rs lines 183-189: a fresh handle over a fresh
stream pair, with the counter seeded to 0. -/
def Transaction.new (receiver : List TransactionResponse) : Transaction :=
  { senderOpen := true, sent := [], receiver := receiver, next_request_id := 0 }

/-- Transaction::request, client.rs lines 191-203: read the counter, increment
it (u32 arithmetic), then try to send the tagged request; a send failure maps
to `ChannelClosed` via the From impl; on success the allocated id is returned. -/
def Transaction.request (t : Transaction) (request : TransactionRequestVariant) :
    Except ClientError Nat × Transaction :=
  let request_id := t.next_request_id
  let t1 := { t with next_request_id := (t.next_request_id + 1) % 2 ^ 32 }
  match mpscSend t1.senderOpen t1.sent { request_id := request_id, request := some request } with
  | Except.ok sent1 => (Except.ok request_id, { t1 with sent := sent1 })
  | Except.error e => (Except.error (clientErrorOfSendError e), t1)

/-- Transaction::request_single, client.rs lines 205-222: issue the request,
then await exactly one inbound message. A present payload has its id checked
and is returned; anything else (stream end, or a message with `response: None`)
is `UnexpectedEmptyResponse` carrying the issued id. -/
def Transaction.request_single (t : Transaction) (request : TransactionRequestVariant) :
    Except ClientError TransactionResponseVariant × Transaction :=
  match Transaction.request t request with
  | (Except.error e, t1) => (Except.error e, t1)
  | (Except.ok expected_request_id, t1) =>
    match streamingMessage t1.receiver with
    | (some r, rest) =>
      match r.response with
      | some response =>
        match check_request_id expected_request_id r.request_id with
        | Except.error e => (Except.error e, { t1 with receiver := rest })
        | Except.ok _ => (Except.ok response, { t1 with receiver := rest })
      | none =>
        (Except.error (ClientError.UnexpectedEmptyResponse expected_request_id),
         { t1 with receiver := rest })
    | (none, rest) =>
      (Except.error (ClientError.UnexpectedEmptyResponse expected_request_id),
       { t1 with receiver := rest })

/-- The loop of Transaction::request_multi, client.rs lines 230-250, recursing
on the inbound stream: a present payload has its id checked first, then the
`Empty` test breaks the loop returning the accumulated values; a non-Empty
payload is pushed and the loop continues; stream end or an absent payload is
`UnexpectedEmptyResponse`. Returns the result and the rest of the stream. -/
def requestMultiLoop :
    Nat → List TransactionResponseVariant → List TransactionResponse →
    Except ClientError (List TransactionResponseVariant) × List TransactionResponse
  | expected, _values, [] =>
    (Except.error (ClientError.UnexpectedEmptyResponse expected), [])
  | expected, values, r :: rest =>
    match r.response with
    | some response =>
      match check_request_id expected r.request_id with
      | Except.error e => (Except.error e, rest)
      | Except.ok _ =>
        match response with
        | TransactionResponseVariant.Empty => (Except.ok values, rest)
        | _ => requestMultiLoop expected (values ++ [response]) rest
    | none => (Except.error (ClientError.UnexpectedEmptyResponse expected), rest)

/-- Transaction::request_multi, client.rs lines 224-252: issue the request,
start from an empty vector of values, and run the receive loop. -/
def Transaction.request_multi (t : Transaction) (request : TransactionRequestVariant) :
    Except ClientError (List TransactionResponseVariant) × Transaction :=
  match Transaction.request t request with
  | (Except.error e, t1) => (Except.error e, t1)
  | (Except.ok expected_request_id, t1) =>
    match requestMultiLoop expected_request_id [] t1.receiver with
    | (res, rest) => (res, { t1 with receiver := rest })

/-- Issuing a sequence of requests one after another on the same Transaction
(each domain-facing operation begins with one call of Transaction::request). -/
def issueN : Transaction → List TransactionRequestVariant → Transaction
  | t, [] => t
  | t, op :: ops => issueN (Transaction.request t op).2 ops

/-- CHANNEL_CAPACITY, client.rs line 14. -/
def CHANNEL_CAPACITY : Nat := 100

/-- Modelled from the spec: §4.3 — insertion items are vertex, edge, or
property records (`indradb::BulkInsertItem`, not under src/); their content
never influences the claims, so an item is a tagged record. -/
inductive BulkInsertItem where
  | item : Nat → BulkInsertItem
deriving DecidableEq

/-- Client::bulk_insert, client.rs line 144:
`let items: Vec<indradb::BulkInsertItem> = items.collect();` — the whole
iterator is drained into a vector, every item resident simultaneously, before
the channel is created and before any item is sent. The iterator is modelled by
the list of items it yields. -/
def bulkInsertCollect (items : List BulkInsertItem) : List BulkInsertItem :=
  items

/-- The number of insertion items the client holds in memory at once at the
point the collect of client.rs line 144 returns (before the first send). -/
def bulkInsertBufferedAtSpawn (items : List BulkInsertItem) : Nat :=
  (bulkInsertCollect items).length

/-- The spawned feeder task of Client::bulk_insert, client.rs lines 146-152:
it sends the collected items in order into the bounded queue; when a send
fails (the receiving side is gone) it returns at once, silently — its return
type carries no error. The receiving side is modelled by how many sends it
accepts before it is gone; the result is the list of items actually sent. -/
def feedTask : List BulkInsertItem → Nat → List BulkInsertItem
  | [], _ => []
  | _ :: _, 0 => []
  | i :: rest, Nat.succ accepts => i :: feedTask rest accepts

/-- Client::bulk_insert, client.rs lines 140-156: collect the items, spawn the
feeder (whose outcome is discarded), then await the acknowledgment of the
bulk_insert call itself; `serverAck` models whether the peer acknowledges, a
failure surfacing as a gRPC Status mapped to `Grpc`. -/
def bulk_insert (items : List BulkInsertItem) (accepts : Nat) (serverAck : Bool) :
    Except ClientError Unit :=
  let collected := bulkInsertCollect items
  let _sent := feedTask collected accepts
  match serverAck with
  | true => Except.ok ()
  | false => Except.error ClientError.Grpc

/-! ### Helper lemmas about Transaction.request -/

theorem request_senderOpen (t : Transaction) (op : TransactionRequestVariant) :
    ((Transaction.request t op).2).senderOpen = t.senderOpen := by
  cases h : t.senderOpen <;> simp [Transaction.request, mpscSend, h]

theorem request_receiver (t : Transaction) (op : TransactionRequestVariant) :
    ((Transaction.request t op).2).receiver = t.receiver := by
  cases h : t.senderOpen <;> simp [Transaction.request, mpscSend, h]

theorem request_next_request_id (t : Transaction) (op : TransactionRequestVariant) :
    ((Transaction.request t op).2).next_request_id = (t.next_request_id + 1) % 2 ^ 32 := by
  cases h : t.senderOpen <;> simp [Transaction.request, mpscSend, h]

theorem request_of_open (t : Transaction) (op : TransactionRequestVariant)
    (h : t.senderOpen = true) :
    Transaction.request t op =
      (Except.ok t.next_request_id,
       { t with next_request_id := (t.next_request_id + 1) % 2 ^ 32,
                sent := t.sent ++ [⟨t.next_request_id, some op⟩] }) := by
  simp [Transaction.request, mpscSend, h]

theorem request_of_closed (t : Transaction) (op : TransactionRequestVariant)
    (h : t.senderOpen = false) :
    Transaction.request t op =
      (Except.error ClientError.ChannelClosed,
       { t with next_request_id := (t.next_request_id + 1) % 2 ^ 32 }) := by
  simp [Transaction.request, mpscSend, clientErrorOfSendError, h]

/-! ### Helper lemmas about the request_multi loop -/

theorem requestMultiLoop_nil (expected : Nat) (values : List TransactionResponseVariant) :
    requestMultiLoop expected values [] =
      (Except.error (ClientError.UnexpectedEmptyResponse expected), []) := by
  simp [requestMultiLoop]

theorem requestMultiLoop_none (expected : Nat) (values : List TransactionResponseVariant)
    (rid : Nat) (rest : List TransactionResponse) :
    requestMultiLoop expected values (TransactionResponse.mk rid none :: rest) =
      (Except.error (ClientError.UnexpectedEmptyResponse expected), rest) := by
  simp [requestMultiLoop]

theorem requestMultiLoop_empty_head (expected : Nat) (values : List TransactionResponseVariant)
    (rest : List TransactionResponse) :
    requestMultiLoop expected values
        (TransactionResponse.mk expected (some TransactionResponseVariant.Empty) :: rest) =
      (Except.ok values, rest) := by
  simp [requestMultiLoop, check_request_id]

theorem requestMultiLoop_mismatch (expected : Nat) (values : List TransactionResponseVariant)
    (actual : Nat) (p : TransactionResponseVariant) (rest : List TransactionResponse)
    (h : ¬ expected = actual) :
    requestMultiLoop expected values (TransactionResponse.mk actual (some p) :: rest) =
      (Except.error (ClientError.UnexpectedResponseId expected actual), rest) := by
  simp [requestMultiLoop, check_request_id, h]

theorem requestMultiLoop_data (expected : Nat) (datas : List TransactionResponseVariant)
    (values : List TransactionResponseVariant) (rest : List TransactionResponse)
    (hne : ∀ d ∈ datas, d ≠ TransactionResponseVariant.Empty) :
    requestMultiLoop expected values
        (datas.map (fun d => TransactionResponse.mk expected (some d)) ++ rest) =
      requestMultiLoop expected (values ++ datas) rest := by
  revert hne
  induction datas generalizing values with
  | nil => intro _; simp
  | cons d ds ih =>
    intro hne
    have hd : d ≠ TransactionResponseVariant.Empty := hne d (by simp)
    have hds : ∀ x ∈ ds, x ≠ TransactionResponseVariant.Empty := by
      intro x hx
      exact hne x (by simp [hx])
    cases d with
    | Empty => exact absurd rfl hd
    | Data n =>
      have step : requestMultiLoop expected values
          (TransactionResponse.mk expected (some (TransactionResponseVariant.Data n)) ::
            (ds.map (fun x => TransactionResponse.mk expected (some x)) ++ rest)) =
          requestMultiLoop expected (values ++ [TransactionResponseVariant.Data n])
            (ds.map (fun x => TransactionResponse.mk expected (some x)) ++ rest) := by
        simp [requestMultiLoop, check_request_id]
      simp only [List.map_cons, List.cons_append]
      rw [step, ih _ hds]
      simp

theorem request_multi_of_open (t : Transaction) (op : TransactionRequestVariant)
    (h : t.senderOpen = true) :
    Transaction.request_multi t op =
      ((requestMultiLoop t.next_request_id [] t.receiver).1,
       { t with next_request_id := (t.next_request_id + 1) % 2 ^ 32,
                sent := t.sent ++ [⟨t.next_request_id, some op⟩],
                receiver := (requestMultiLoop t.next_request_id [] t.receiver).2 }) := by
  unfold Transaction.request_multi
  rw [request_of_open t op h]

theorem request_single_of_open (t : Transaction) (op : TransactionRequestVariant)
    (h : t.senderOpen = true) :
    Transaction.request_single t op =
      ((match streamingMessage t.receiver with
        | (some r, _) =>
          match r.response with
          | some response =>
            match check_request_id t.next_request_id r.request_id with
            | Except.error e => Except.error e
            | Except.ok _ => Except.ok response
          | none => Except.error (ClientError.UnexpectedEmptyResponse t.next_request_id)
        | (none, _) => Except.error (ClientError.UnexpectedEmptyResponse t.next_request_id)),
       { t with next_request_id := (t.next_request_id + 1) % 2 ^ 32,
                sent := t.sent ++ [⟨t.next_request_id, some op⟩],
                receiver := (streamingMessage t.receiver).2 }) := by
  unfold Transaction.request_single
  rw [request_of_open t op h]
  cases hm : streamingMessage t.receiver with
  | mk o rest =>
    cases o with
    | none => simp [hm]
    | some r =>
      cases hr : r.response with
      | none => simp [hm, hr]
      | some response =>
        cases hc : check_request_id t.next_request_id r.request_id with
        | error e => simp [hm, hr, hc]
        | ok u => simp [hm, hr, hc]

/-! ### Claims about the reply primitives -/

/-- C2: for every inbound stream consisting of k non-Empty responses followed
by one Empty-payload response, all carrying the issued call identifier,
request_multi returns Ok with exactly those k payloads in arrival order,
excluding the Empty terminator, and consumes exactly k+1 messages from the
stream (whatever follows the terminator is left unread); in particular, when
the first response is the Empty terminator it returns an empty collection. -/
theorem c2_request_multi_collects (t : Transaction) (op : TransactionRequestVariant)
    (datas : List TransactionResponseVariant) (suffix : List TransactionResponse)
    (hopen : t.senderOpen = true)
    (hne : ∀ d ∈ datas, d ≠ TransactionResponseVariant.Empty)
    (hrecv : t.receiver =
      datas.map (fun d => TransactionResponse.mk t.next_request_id (some d)) ++
        TransactionResponse.mk t.next_request_id (some TransactionResponseVariant.Empty) ::
          suffix) :
    (Transaction.request_multi t op).1 = Except.ok datas ∧
    (Transaction.request_multi t op).2.receiver = suffix := by
  have hloop : requestMultiLoop t.next_request_id [] t.receiver = (Except.ok datas, suffix) := by
    rw [hrecv, requestMultiLoop_data _ _ _ _ hne, List.nil_append]
    exact requestMultiLoop_empty_head _ _ _
  rw [request_multi_of_open t op hopen]
  simp [hloop]

/-- C3: for every inbound message carrying a present payload whose call_id
differs from the identifier of the request just issued, request_multi (after
any number of well-tagged non-Empty responses) and request_single (awaiting
its one reply) fail with UnexpectedResponseId carrying the issued identifier
as expected and the received one as actual, and the mismatched payload is not
returned or accumulated; this holds even when the mismatched payload is the
Empty terminator, because the identifier is validated before the Empty check. -/
theorem c3_mismatched_id (t : Transaction) (op : TransactionRequestVariant)
    (datas : List TransactionResponseVariant) (actual : Nat)
    (payload : TransactionResponseVariant) (suffix : List TransactionResponse)
    (hopen : t.senderOpen = true)
    (hne : ∀ d ∈ datas, d ≠ TransactionResponseVariant.Empty)
    (hmis : ¬ t.next_request_id = actual)
    (hrecv : t.receiver =
      datas.map (fun d => TransactionResponse.mk t.next_request_id (some d)) ++
        TransactionResponse.mk actual (some payload) :: suffix) :
    (Transaction.request_multi t op).1 =
      Except.error (ClientError.UnexpectedResponseId t.next_request_id actual) ∧
    (datas = [] →
      (Transaction.request_single t op).1 =
        Except.error (ClientError.UnexpectedResponseId t.next_request_id actual)) := by
  constructor
  · have hloop : requestMultiLoop t.next_request_id [] t.receiver =
        (Except.error (ClientError.UnexpectedResponseId t.next_request_id actual), suffix) := by
      rw [hrecv, requestMultiLoop_data _ _ _ _ hne, List.nil_append]
      exact requestMultiLoop_mismatch _ _ _ _ _ hmis
    rw [request_multi_of_open t op hopen]
    simp [hloop]
  · intro hnil
    subst hnil
    simp only [List.map_nil, List.nil_append] at hrecv
    rw [request_single_of_open t op hopen]
    simp [hrecv, streamingMessage, check_request_id, hmis]

/-- C4: for every inbound stream that ends before a response arrives, both
request_single and request_multi fail with UnexpectedEmptyResponse carrying
the identifier of the request just issued; request_multi fails the same way
when the stream ends after some well-tagged non-Empty responses but before
the Empty terminator. -/
theorem c4_stream_end (t : Transaction) (op : TransactionRequestVariant)
    (datas : List TransactionResponseVariant)
    (hopen : t.senderOpen = true)
    (hne : ∀ d ∈ datas, d ≠ TransactionResponseVariant.Empty)
    (hrecv : t.receiver =
      datas.map (fun d => TransactionResponse.mk t.next_request_id (some d))) :
    (Transaction.request_multi t op).1 =
      Except.error (ClientError.UnexpectedEmptyResponse t.next_request_id) ∧
    (datas = [] →
      (Transaction.request_single t op).1 =
        Except.error (ClientError.UnexpectedEmptyResponse t.next_request_id)) := by
  constructor
  · have h1 := requestMultiLoop_data t.next_request_id datas [] [] hne
    simp only [List.append_nil, List.nil_append] at h1
    have hloop : requestMultiLoop t.next_request_id [] t.receiver =
        (Except.error (ClientError.UnexpectedEmptyResponse t.next_request_id), []) := by
      rw [hrecv, h1, requestMultiLoop_nil]
    rw [request_multi_of_open t op hopen]
    simp [hloop]
  · intro hnil
    subst hnil
    simp only [List.map_nil] at hrecv
    rw [request_single_of_open t op hopen]
    simp [hrecv, streamingMessage]

/-- C9: for every inbound message whose response payload is absent (None),
request_single and request_multi fail with UnexpectedEmptyResponse carrying
the issued identifier, whatever call_id the message bears — a payload-less
response with a mismatched identifier is reported as UnexpectedEmptyResponse,
never as UnexpectedResponseId. -/
theorem c9_absent_payload (t : Transaction) (op : TransactionRequestVariant)
    (rid : Nat) (suffix : List TransactionResponse)
    (hopen : t.senderOpen = true)
    (hrecv : t.receiver = TransactionResponse.mk rid none :: suffix) :
    (Transaction.request_single t op).1 =
      Except.error (ClientError.UnexpectedEmptyResponse t.next_request_id) ∧
    (Transaction.request_multi t op).1 =
      Except.error (ClientError.UnexpectedEmptyResponse t.next_request_id) := by
  constructor
  · rw [request_single_of_open t op hopen]
    simp [hrecv, streamingMessage]
  · rw [request_multi_of_open t op hopen]
    simp [hrecv, requestMultiLoop_none]

/-- C7: for every operation issued on a Transaction whose outbound sink has
been closed, the request primitive (and with it request_single and
request_multi, which begin by issuing) fails with ChannelClosed, and
ChannelClosed is the error every send failure on the outbound channel maps
to. -/
theorem c7_channel_closed (t : Transaction) (op : TransactionRequestVariant)
    (h : t.senderOpen = false) :
    (Transaction.request t op).1 = Except.error ClientError.ChannelClosed ∧
    (Transaction.request_single t op).1 = Except.error ClientError.ChannelClosed ∧
    (Transaction.request_multi t op).1 = Except.error ClientError.ChannelClosed ∧
    (∀ e : TransactionRequest, clientErrorOfSendError e = ClientError.ChannelClosed) := by
  have hreq := request_of_closed t op h
  refine ⟨by rw [hreq], ?_, ?_, fun e => rfl⟩
  · unfold Transaction.request_single
    rw [hreq]
  · unfold Transaction.request_multi
    rw [hreq]

/-- C10: every invocation of the request primitive increments next_request_id
by exactly 1 (in u32 arithmetic) before the send is attempted, so when the
send fails and ChannelClosed is returned the counter has still advanced: an
identifier is consumed although no Request reached the wire. -/
theorem c10_counter_advances_on_failure (t : Transaction) (op : TransactionRequestVariant) :
    ((Transaction.request t op).2).next_request_id = (t.next_request_id + 1) % 2 ^ 32 ∧
    (t.senderOpen = false →
      (Transaction.request t op).1 = Except.error ClientError.ChannelClosed ∧
      ((Transaction.request t op).2).sent = t.sent) := by
  refine ⟨request_next_request_id t op, fun h => ?_⟩
  rw [request_of_closed t op h]
  exact ⟨rfl, rfl⟩

/-- Witness for C2: a fresh transaction whose inbound stream delivers three
data payloads then the Empty terminator, all tagged with the issued id 0:
request_multi returns exactly the three payloads and consumes all four
messages. -/
theorem c2_request_multi_collects_witness :
    (Transaction.new
        [TransactionResponse.mk 0 (some (TransactionResponseVariant.Data 1)),
         TransactionResponse.mk 0 (some (TransactionResponseVariant.Data 2)),
         TransactionResponse.mk 0 (some (TransactionResponseVariant.Data 3)),
         TransactionResponse.mk 0 (some TransactionResponseVariant.Empty)]).senderOpen = true ∧
    (∀ d ∈ [TransactionResponseVariant.Data 1, TransactionResponseVariant.Data 2,
        TransactionResponseVariant.Data 3], d ≠ TransactionResponseVariant.Empty) ∧
    (Transaction.request_multi
        (Transaction.new
          [TransactionResponse.mk 0 (some (TransactionResponseVariant.Data 1)),
           TransactionResponse.mk 0 (some (TransactionResponseVariant.Data 2)),
           TransactionResponse.mk 0 (some (TransactionResponseVariant.Data 3)),
           TransactionResponse.mk 0 (some TransactionResponseVariant.Empty)])
        (TransactionRequestVariant.Op 0)).1 =
      Except.ok [TransactionResponseVariant.Data 1, TransactionResponseVariant.Data 2,
        TransactionResponseVariant.Data 3] ∧
    (Transaction.request_multi
        (Transaction.new
          [TransactionResponse.mk 0 (some (TransactionResponseVariant.Data 1)),
           TransactionResponse.mk 0 (some (TransactionResponseVariant.Data 2)),
           TransactionResponse.mk 0 (some (TransactionResponseVariant.Data 3)),
           TransactionResponse.mk 0 (some TransactionResponseVariant.Empty)])
        (TransactionRequestVariant.Op 0)).2.receiver = [] := by
  have h := c2_request_multi_collects
    (Transaction.new
      [TransactionResponse.mk 0 (some (TransactionResponseVariant.Data 1)),
       TransactionResponse.mk 0 (some (TransactionResponseVariant.Data 2)),
       TransactionResponse.mk 0 (some (TransactionResponseVariant.Data 3)),
       TransactionResponse.mk 0 (some TransactionResponseVariant.Empty)])
    (TransactionRequestVariant.Op 0)
    [TransactionResponseVariant.Data 1, TransactionResponseVariant.Data 2,
      TransactionResponseVariant.Data 3]
    [] rfl (by decide) rfl
  exact ⟨rfl, by decide, h.1, h.2⟩

/-- Witness for C3: the inbound stream answers with id 1 while id 0 was
issued; both primitives fail with UnexpectedResponseId, expected 0, actual 1. -/
theorem c3_mismatched_id_witness :
    (Transaction.new
        [TransactionResponse.mk 1 (some (TransactionResponseVariant.Data 7))]).senderOpen
      = true ∧
    ¬ (Transaction.new
        [TransactionResponse.mk 1 (some (TransactionResponseVariant.Data 7))]).next_request_id
      = 1 ∧
    (Transaction.request_multi
        (Transaction.new [TransactionResponse.mk 1 (some (TransactionResponseVariant.Data 7))])
        (TransactionRequestVariant.Op 0)).1 =
      Except.error (ClientError.UnexpectedResponseId 0 1) ∧
    (Transaction.request_single
        (Transaction.new [TransactionResponse.mk 1 (some (TransactionResponseVariant.Data 7))])
        (TransactionRequestVariant.Op 0)).1 =
      Except.error (ClientError.UnexpectedResponseId 0 1) := by
  have h := c3_mismatched_id
    (Transaction.new [TransactionResponse.mk 1 (some (TransactionResponseVariant.Data 7))])
    (TransactionRequestVariant.Op 0) [] 1 (TransactionResponseVariant.Data 7) []
    rfl (by decide) (by decide) rfl
  exact ⟨rfl, by decide, h.1, h.2 rfl⟩

/-- Witness for C4: the inbound stream ends before any response; both
primitives fail with UnexpectedEmptyResponse carrying the issued id 0. -/
theorem c4_stream_end_witness :
    (Transaction.new []).senderOpen = true ∧
    (Transaction.request_multi (Transaction.new []) (TransactionRequestVariant.Op 0)).1 =
      Except.error (ClientError.UnexpectedEmptyResponse 0) ∧
    (Transaction.request_single (Transaction.new []) (TransactionRequestVariant.Op 0)).1 =
      Except.error (ClientError.UnexpectedEmptyResponse 0) := by
  have h := c4_stream_end (Transaction.new []) (TransactionRequestVariant.Op 0) []
    rfl (by decide) rfl
  exact ⟨rfl, h.1, h.2 rfl⟩

/-- Witness for C9: the inbound message has an absent payload and even a
mismatched id 5; both primitives report UnexpectedEmptyResponse for the
issued id 0, not UnexpectedResponseId. -/
theorem c9_absent_payload_witness :
    (Transaction.new [TransactionResponse.mk 5 none]).senderOpen = true ∧
    (Transaction.request_single
        (Transaction.new [TransactionResponse.mk 5 none])
        (TransactionRequestVariant.Op 0)).1 =
      Except.error (ClientError.UnexpectedEmptyResponse 0) ∧
    (Transaction.request_multi
        (Transaction.new [TransactionResponse.mk 5 none])
        (TransactionRequestVariant.Op 0)).1 =
      Except.error (ClientError.UnexpectedEmptyResponse 0) := by
  have h := c9_absent_payload
    (Transaction.new [TransactionResponse.mk 5 none]) (TransactionRequestVariant.Op 0)
    5 [] rfl rfl
  exact ⟨rfl, h.1, h.2⟩

/-- Witness for C7: on a transaction whose outbound sink is closed, request,
request_single and request_multi all fail with ChannelClosed. -/
theorem c7_channel_closed_witness :
    (Transaction.mk false [] [] 0).senderOpen = false ∧
    (Transaction.request (Transaction.mk false [] [] 0) (TransactionRequestVariant.Op 0)).1 =
      Except.error ClientError.ChannelClosed ∧
    (Transaction.request_single (Transaction.mk false [] [] 0)
        (TransactionRequestVariant.Op 0)).1 = Except.error ClientError.ChannelClosed ∧
    (Transaction.request_multi (Transaction.mk false [] [] 0)
        (TransactionRequestVariant.Op 0)).1 = Except.error ClientError.ChannelClosed ∧
    clientErrorOfSendError (TransactionRequest.mk 0 none) = ClientError.ChannelClosed := by
  have h := c7_channel_closed (Transaction.mk false [] [] 0) (TransactionRequestVariant.Op 0) rfl
  exact ⟨rfl, h.1, h.2.1, h.2.2.1, h.2.2.2 (TransactionRequest.mk 0 none)⟩

/-- Witness for C10: on a closed-sink transaction with counter 0, the failed
issuance still advances the counter to 1 and puts nothing on the wire. -/
theorem c10_counter_advances_on_failure_witness :
    (Transaction.mk false [] [] 0).senderOpen = false ∧
    ((Transaction.request (Transaction.mk false [] [] 0)
        (TransactionRequestVariant.Op 0)).2).next_request_id = 1 ∧
    (Transaction.request (Transaction.mk false [] [] 0) (TransactionRequestVariant.Op 0)).1 =
      Except.error ClientError.ChannelClosed ∧
    ((Transaction.request (Transaction.mk false [] [] 0)
        (TransactionRequestVariant.Op 0)).2).sent = [] := by
  have h := c10_counter_advances_on_failure (Transaction.mk false [] [] 0)
    (TransactionRequestVariant.Op 0)
  have h2 := h.2 rfl
  refine ⟨rfl, ?_, h2.1, h2.2⟩
  rw [h.1]
  norm_num

/-! ### The identifier sequence put on the wire by repeated issuance -/

theorem issueN_sent_ids (ops : List TransactionRequestVariant) :
    ∀ t : Transaction, t.senderOpen = true → t.next_request_id < 2 ^ 32 →
      (issueN t ops).sent.map TransactionRequest.request_id =
        t.sent.map TransactionRequest.request_id ++
          (List.range ops.length).map (fun i => (t.next_request_id + i) % 2 ^ 32) := by
  induction ops with
  | nil =>
    intro t _ _
    simp [issueN]
  | cons op ops ih =>
    intro t h hlt
    have h2 : ((Transaction.request t op).2).senderOpen = true := by
      rw [request_senderOpen]
      exact h
    have hlt2 : ((Transaction.request t op).2).next_request_id < 2 ^ 32 := by
      rw [request_next_request_id]
      exact Nat.mod_lt _ (by norm_num)
    have hih := ih ((Transaction.request t op).2) h2 hlt2
    show (issueN (Transaction.request t op).2 ops).sent.map TransactionRequest.request_id = _
    rw [hih, request_of_open t op h]
    dsimp only
    rw [List.length_cons, List.range_succ_eq_map]
    simp only [List.map_append, List.map_cons, List.map_nil, List.map_map, List.append_assoc,
      List.singleton_append, Nat.add_zero]
    congr 1
    congr 1
    · exact (Nat.mod_eq_of_lt hlt).symm
    · congr 1
      funext i
      simp only [Function.comp_apply, Nat.mod_add_mod]
      congr 1
      omega

theorem issueN_ids_mod (rcv : List TransactionResponse) (ops : List TransactionRequestVariant) :
    (issueN (Transaction.new rcv) ops).sent.map TransactionRequest.request_id =
      (List.range ops.length).map (fun i => i % 2 ^ 32) := by
  have h := issueN_sent_ids ops (Transaction.new rcv) rfl (by norm_num [Transaction.new])
  simpa [Transaction.new] using h

theorem issueN_ids_range (rcv : List TransactionResponse) (ops : List TransactionRequestVariant)
    (h : ops.length ≤ 2 ^ 32) :
    (issueN (Transaction.new rcv) ops).sent.map TransactionRequest.request_id =
      List.range ops.length := by
  rw [issueN_ids_mod]
  have hpt : ∀ i ∈ List.range ops.length, i % 2 ^ 32 = id i := by
    intro i hi
    exact Nat.mod_eq_of_lt (lt_of_lt_of_le (List.mem_range.mp hi) h)
  rw [List.map_congr_left hpt, List.map_id]

/-- Counterexample to C1 as stated: the claim quantifies over every successful
sequence of N issuances, but the counter is a u32 and wraps. After 2^32 + 1
issuances on a fresh Transaction (all successful: the sink stays open), the
identifiers on the wire are not 0, 1, ..., N-1 — position 2^32 carries the
wrapped identifier 0, not 2^32. -/
theorem c1_counterexample :
    (issueN (Transaction.new [])
        (List.replicate (2 ^ 32 + 1) (TransactionRequestVariant.Op 0))).sent.map
        TransactionRequest.request_id ≠
      List.range (2 ^ 32 + 1) := by
  intro heq
  rw [issueN_ids_mod, List.length_replicate] at heq
  have hmem : (2 ^ 32 : Nat) ∈ List.range (2 ^ 32 + 1) := List.mem_range.mpr (by norm_num)
  rw [← heq] at hmem
  rcases List.mem_map.mp hmem with ⟨i, _, hi⟩
  have hlt : i % 2 ^ 32 < 2 ^ 32 := Nat.mod_lt _ (by norm_num)
  rw [hi] at hlt
  exact absurd hlt (lt_irrefl _)

/-- C1 (amended): on a freshly opened Transaction (counter seeded to 0), every
successful sequence of N request issuances with N at most 2^32 puts
identifiers 0, 1, ..., N-1 on the wire in that order; the request primitive
tags each outgoing TransactionRequest with the current counter value (its
result on an open sink is Ok of that value) and increments the counter by
exactly 1 in u32 arithmetic per request; no operation otherwise changes the
counter. Beyond 2^32 issuances the u32 counter wraps (see the
counterexample). -/
theorem c1_wire_ids_in_order (rcv : List TransactionResponse)
    (ops : List TransactionRequestVariant) (h : ops.length ≤ 2 ^ 32) :
    (issueN (Transaction.new rcv) ops).sent.map TransactionRequest.request_id =
      List.range ops.length ∧
    (∀ (t : Transaction) (op : TransactionRequestVariant), t.senderOpen = true →
      (Transaction.request t op).1 = Except.ok t.next_request_id) := by
  refine ⟨issueN_ids_range rcv ops h, fun t op hop => ?_⟩
  rw [request_of_open t op hop]

/-- Witness for C1 (amended): three issuances on a fresh Transaction put
identifiers 0, 1, 2 on the wire. -/
theorem c1_wire_ids_in_order_witness :
    ([TransactionRequestVariant.Op 0, TransactionRequestVariant.Op 1,
        TransactionRequestVariant.Op 2].length ≤ 2 ^ 32) ∧
    (issueN (Transaction.new [])
        [TransactionRequestVariant.Op 0, TransactionRequestVariant.Op 1,
         TransactionRequestVariant.Op 2]).sent.map TransactionRequest.request_id =
      List.range 3 := by
  have h := c1_wire_ids_in_order []
    [TransactionRequestVariant.Op 0, TransactionRequestVariant.Op 1,
     TransactionRequestVariant.Op 2] (by norm_num)
  exact ⟨by norm_num, h.1⟩

/-- Counterexample to C8 as stated: the claim says no identifier value is ever
reused across any number of issued requests, but after 2^32 + 1 issuances on
a fresh Transaction the u32 counter has wrapped and the wire identifiers are
no longer pairwise distinct (identifier 0 is carried both by the first and by
the 2^32+1-th request). -/
theorem c8_counterexample :
    ¬ ((issueN (Transaction.new [])
        (List.replicate (2 ^ 32 + 1) (TransactionRequestVariant.Op 0))).sent.map
        TransactionRequest.request_id).Nodup := by
  intro hnd
  rw [issueN_ids_mod, List.length_replicate] at hnd
  have hinj := List.inj_on_of_nodup_map hnd
  have h0 : (0 : Nat) ∈ List.range (2 ^ 32 + 1) := List.mem_range.mpr (by norm_num)
  have h1 : (2 ^ 32 : Nat) ∈ List.range (2 ^ 32 + 1) := List.mem_range.mpr (by norm_num)
  have heq : (0 : Nat) % 2 ^ 32 = 2 ^ 32 % 2 ^ 32 := by simp
  have h01 := hinj h0 h1 heq
  exact absurd h01 (by norm_num)

/-- C8 (amended): the call identifier is an unsigned 32-bit counter scoped to
one Transaction Channel instance: seeded to 0 when the handle is created,
incremented by exactly 1 in u32 (modulo 2^32) arithmetic per issued request,
and never otherwise changed or reset; as long as at most 2^32 requests are
issued over the channel lifetime, no identifier value is reused (at the
2^32+1-th request the counter has wrapped and identifier 0 repeats, see the
counterexample). -/
theorem c8_counter_u32 (rcv : List TransactionResponse)
    (ops : List TransactionRequestVariant) (h : ops.length ≤ 2 ^ 32) :
    (Transaction.new rcv).next_request_id = 0 ∧
    (∀ (t : Transaction) (op : TransactionRequestVariant),
      ((Transaction.request t op).2).next_request_id = (t.next_request_id + 1) % 2 ^ 32) ∧
    ((issueN (Transaction.new rcv) ops).sent.map TransactionRequest.request_id).Nodup := by
  refine ⟨rfl, request_next_request_id, ?_⟩
  rw [issueN_ids_range rcv ops h]
  exact List.nodup_range _

/-- Witness for C8 (amended): with three issuances on a fresh Transaction the
counter starts at 0, steps by 1, and the three wire identifiers are pairwise
distinct. -/
theorem c8_counter_u32_witness :
    ([TransactionRequestVariant.Op 0, TransactionRequestVariant.Op 1,
        TransactionRequestVariant.Op 2].length ≤ 2 ^ 32) ∧
    (Transaction.new []).next_request_id = 0 ∧
    ((issueN (Transaction.new [])
        [TransactionRequestVariant.Op 0, TransactionRequestVariant.Op 1,
         TransactionRequestVariant.Op 2]).sent.map TransactionRequest.request_id).Nodup := by
  have h := c8_counter_u32 []
    [TransactionRequestVariant.Op 0, TransactionRequestVariant.Op 1,
     TransactionRequestVariant.Op 2] (by norm_num)
  exact ⟨by norm_num, h.1, h.2.2⟩

/-! ### Claims about bulk_insert -/

theorem feedTask_eq_take (items : List BulkInsertItem) :
    ∀ accepts : Nat, feedTask items accepts = items.take accepts := by
  induction items with
  | nil =>
    intro a
    cases a <;> rfl
  | cons i rest ih =>
    intro a
    cases a with
    | zero => rfl
    | succ a => simp [feedTask, ih a]

/-- Counterexample to C5 as stated: bulk_insert does require the whole batch
to be buffered in memory at once. Its first step (client.rs line 144)
collects the entire iterator into a vector before the channel exists and
before any item is sent: with a batch of CHANNEL_CAPACITY + 1 = 101 items,
all 101 are resident simultaneously, exceeding the bounded queue capacity of
100 that the claim says limits buffering. -/
theorem c5_counterexample :
    CHANNEL_CAPACITY = 100 ∧
    bulkInsertBufferedAtSpawn
        (List.replicate (CHANNEL_CAPACITY + 1) (BulkInsertItem.item 0)) =
      CHANNEL_CAPACITY + 1 ∧
    CHANNEL_CAPACITY < CHANNEL_CAPACITY + 1 := by
  refine ⟨rfl, ?_, by norm_num⟩
  simp [bulkInsertBufferedAtSpawn, bulkInsertCollect]

/-- C5 (amended): bulk_insert accepts an iterator of insertion items but first
collects it entirely into an in-memory vector — the whole batch is buffered
at once — and only then does a background task stream the collected items, in
order, through a bounded queue of capacity 100 toward the outbound stream
(sending as many items as the receiving side accepts). -/
theorem c5_bulk_insert_collects_then_feeds (items : List BulkInsertItem) (accepts : Nat) :
    bulkInsertCollect items = items ∧
    bulkInsertBufferedAtSpawn items = items.length ∧
    CHANNEL_CAPACITY = 100 ∧
    feedTask (bulkInsertCollect items) accepts = items.take accepts :=
  ⟨rfl, rfl, rfl, feedTask_eq_take items accepts⟩

/-- C6: when the receiving side of the bulk-insert queue is gone, the
background feeding task stops silently (it sends nothing further and returns
no error — feedTask yields only the items actually sent), and the value
returned to the caller of bulk_insert is determined solely by the acknowledgment
of the batch-closing call by the peer: it is identical whatever items were
fed and however many sends the queue accepted. -/
theorem c6_bulk_insert_ack_only (items : List BulkInsertItem) (accepts : Nat)
    (serverAck : Bool) :
    bulk_insert items accepts serverAck =
      (if serverAck then Except.ok () else Except.error ClientError.Grpc) ∧
    bulk_insert items accepts serverAck = bulk_insert [] 0 serverAck ∧
    feedTask items 0 = [] := by
  refine ⟨?_, ?_, ?_⟩
  · cases serverAck <;> rfl
  · cases serverAck <;> rfl
  · cases items <;> rfl
